import Mathlib

/-! PicoQMC5883L demo program (src/main.cpp)

A shallow embedding of `main` of src/main.cpp: the cardinal-direction labeling,
the start-up sequence and the measurement loop with its counters, output and
delays.

Conventions of the embedding.

* A finite `float` value is a rational number, so `float` fields are `ℚ`.  The
  constants 22.5, 67.5, ..., 337.5 are exactly representable in binary floating
  point, so the comparisons of lines 104-116 are exact on these values.
* The `int` counters are `Int`.  Signed overflow is undefined in C++; the model
  follows the arithmetic of the source on mathematical integers, which is what
  the program does while `loop_count` stays below 2^31 - 1.
* The driver class `HMC5883L` (hmc5883l.h and its implementation) is not part of
  src/.  The results of its calls are inputs of the model; the configuration
  setters and the heading computation are modelled from the specification and
  marked as such.
-/

namespace PicoQMC5883L

/-! ## Cardinal direction (main.cpp lines 102-120) -/

/-- The if/else chain of main.cpp lines 104-120 assigning `direction` from
`data.heading_degrees`. -/
def direction (heading_degrees : ℚ) : String :=
  if heading_degrees ≥ 337.5 ∨ heading_degrees < 22.5 then "North"
  else if heading_degrees < 67.5 then "Northeast"
  else if heading_degrees < 112.5 then "East"
  else if heading_degrees < 157.5 then "Southeast"
  else if heading_degrees < 202.5 then "South"
  else if heading_degrees < 247.5 then "Southwest"
  else if heading_degrees < 292.5 then "West"
  else "Northwest"

/-- Names of the eight compass points, clockwise from north. -/
def compassPoints : List String :=
  ["North", "Northeast", "East", "Southeast", "South", "Southwest", "West", "Northwest"]

/-- The labeling as the specification words it (section 4.5): eight equal sectors
of 45 degrees centred on the compass points, so that sector number k (modulo 8)
covers the headings from 45 k - 22.5 (inclusive) to 45 k + 22.5 (exclusive).
This definition follows the specification, not the source; it is compared with
`direction`. -/
def directionBySector (heading_degrees : ℚ) : String :=
  compassPoints.getD (⌊(heading_degrees + 22.5) / 45⌋ % 8).toNat ""

/-! ## Driver interface

The class `HMC5883L` is declared in hmc5883l.h, which is not in src/.  The
types below carry what main.cpp uses of it. -/

/-- Modelled from the spec: the enum `HMC5883L::Gain` is declared in the absent
header.  main.cpp names `GAIN_2G`; the specification gives the full-scale ranges
as running from ±2G to ±8G. -/
inductive Gain where
  | GAIN_2G
  | GAIN_8G
  deriving DecidableEq, Repr

/-- Modelled from the spec: the enum `HMC5883L::DataRate` is declared in the
absent header.  main.cpp names `ODR_50HZ`; the specification gives the rates as
running from 0.75 Hz to 75 Hz. -/
inductive DataRate where
  | ODR_0_75HZ
  | ODR_50HZ
  | ODR_75HZ
  deriving DecidableEq, Repr

/-- Modelled from the spec: the enum `HMC5883L::Mode` is declared in the absent
header.  main.cpp names `CONTINUOUS`; the specification lists Standby and
Continuous. -/
inductive Mode where
  | STANDBY
  | CONTINUOUS
  deriving DecidableEq, Repr

/-- Modelled from the spec: the driver's Configuration State (sections 3 and
4.2), which is held by the absent class `HMC5883L`: mode, gain, rate and the
cached scale factor in gauss per LSB. -/
structure Configuration where
  mode : Mode
  gain : Gain
  rate : DataRate
  scaleFactor : ℚ
  deriving DecidableEq, Repr

/-- Modelled from the spec: `setGain` of the absent driver (section 4.2).  The
setter writes the register; `writeOk` is the outcome of that bus write.  On
success the configuration takes the new gain and the scale factor derived from
it by the table `gaussPerLSB` of documented constants (a parameter: the
constants are not in src/ nor in the specification); on failure the in-memory
state is left unchanged and the setter reports failure. -/
def setGain (gaussPerLSB : Gain → ℚ) (writeOk : Bool) (g : Gain) (c : Configuration) :
    Configuration × Bool :=
  if writeOk then ({ c with gain := g, scaleFactor := gaussPerLSB g }, true) else (c, false)

/-- Modelled from the spec: `setDataRate` of the absent driver (section 4.2):
writes the register and updates the rate only when the write succeeded. -/
def setDataRate (writeOk : Bool) (r : DataRate) (c : Configuration) : Configuration × Bool :=
  if writeOk then ({ c with rate := r }, true) else (c, false)

/-- Modelled from the spec: `setMode` of the absent driver (section 4.2): writes
the register and updates the mode only when the write succeeded. -/
def setMode (writeOk : Bool) (m : Mode) (c : Configuration) : Configuration × Bool :=
  if writeOk then ({ c with mode := m }, true) else (c, false)

/-- Modelled from the spec: `getScaleFactor` of the absent driver (section 4.2)
returns the cached value, without I/O. -/
def getScaleFactor (c : Configuration) : ℚ := c.scaleFactor

/-- Modelled from the spec: the Heading Computation of the absent driver
(section 4.5): heading_radians = atan2(y, x) of the calibrated components, plus
2π when negative, converted to degrees.  atan2(y, x) is the argument of the
complex number x + y i.  The driver computes this in floating point; the model
is the exact real-valued formula of the specification. -/
noncomputable def headingDegrees (x y : ℝ) : ℝ :=
  let heading_radians := Complex.arg ⟨x, y⟩
  (if heading_radians < 0 then heading_radians + 2 * Real.pi else heading_radians) * 180 / Real.pi

/-- The struct `HMC5883L::MagnetometerData`, with the fields main.cpp reads
(lines 89-104).  The raw values are printed with %d; the others are floats. -/
structure MagnetometerData where
  x_raw : Int
  y_raw : Int
  z_raw : Int
  x_gauss : ℚ
  y_gauss : ℚ
  z_gauss : ℚ
  heading_degrees : ℚ
  temperature_celsius : ℚ
  deriving DecidableEq, Repr

/-! ## Observable events -/

/-- An argument passed to `printf` after the format string. -/
inductive Arg where
  /-- an integer argument (for %d and %02X) -/
  | int (v : Int)
  /-- a floating-point argument, given by the exact value of the expression -/
  | flt (v : ℚ)
  /-- the floating-point argument `sqrt(v)` of line 97 -/
  | sqrt (v : ℚ)
  /-- a string argument (for %s) -/
  | str (s : String)
  deriving DecidableEq, Repr

/-- What `main` does that is visible outside it: calls of the SDK and of the
driver, in program order. -/
inductive Event where
  | stdio_init_all
  | sleep_ms (ms : Nat)
  | printf (fmt : String) (args : List Arg)
  /-- the constructor call HMC5883L compass(i2c0, sda, scl, baud, addr) -/
  | construct (sda scl baud addr : Nat)
  /-- the call i2c_read_blocking(i2c0, addr, &rxdata, 1, false) -/
  | i2c_read_blocking (addr : Int)
  | begin
  | getChipId
  | setGain (g : Gain)
  | setDataRate (r : DataRate)
  | setMode (m : Mode)
  | getScaleFactor
  | isDataReady
  | readData
  deriving DecidableEq, Repr

/-! ## The measurement loop (main.cpp lines 71-154) -/

/-- The four `int` counters of lines 71-74. -/
structure Counters where
  loop_count : Int
  successful_reads : Int
  failed_reads : Int
  no_data_count : Int
  deriving DecidableEq, Repr

/-- The counters as initialised at lines 71-74. -/
def Counters.init : Counters :=
  { loop_count := 0, successful_reads := 0, failed_reads := 0, no_data_count := 0 }

/-- What the driver answers during one iteration of the loop. -/
structure IterInput where
  /-- result of `compass.isDataReady()` at line 82 -/
  ready : Bool
  /-- result of `compass.readData(data)` at line 86, when it is called -/
  readOk : Bool
  /-- contents of the local `data` when `readData` returns -/
  data : MagnetometerData
  /-- result of `compass.isDataReady()` at line 149 -/
  readyAfter : Bool
  deriving DecidableEq, Repr

/-- Lines 88-121: the output after a successful read. -/
def reportData (data : MagnetometerData) : List Event :=
  [ .printf "SUCCESS\n" [],
    .printf "  Raw values: X=%d, Y=%d, Z=%d\n" [.int data.x_raw, .int data.y_raw, .int data.z_raw],
    .printf "  Gauss values: X=%.3f, Y=%.3f, Z=%.3f\n"
      [.flt data.x_gauss, .flt data.y_gauss, .flt data.z_gauss],
    .printf "  Heading of : %.2f degrees\n" [.flt data.heading_degrees],
    .printf "  Temperature: %.1f°C\n" [.flt data.temperature_celsius],
    .printf "  Field strength: %.3f Gauss\n"
      [.sqrt (data.x_gauss * data.x_gauss + data.y_gauss * data.y_gauss
        + data.z_gauss * data.z_gauss)],
    .printf "  Cardinal direction: %s\n" [.str (direction data.heading_degrees)] ]

/-- Lines 85-126: the body of `if (compass.isDataReady())`, after "Data ready - "
is printed: the call of `readData` and its two branches. -/
def readBranch (st : Counters) (readOk : Bool) (data : MagnetometerData) :
    Counters × List Event :=
  if readOk then
    ({ st with successful_reads := st.successful_reads + 1 }, Event.readData :: reportData data)
  else
    ({ st with failed_reads := st.failed_reads + 1 },
      [Event.readData, .printf "FAILED to read data\n" []])

/-- Lines 82-131: the poll of `isDataReady` and its two branches. -/
def pollBranch (st : Counters) (i : IterInput) : Counters × List Event :=
  if i.ready then
    let r := readBranch st i.readOk i.data
    (r.1, [Event.isDataReady, .printf "Data ready - " []] ++ r.2)
  else
    ({ st with no_data_count := st.no_data_count + 1 },
      [Event.isDataReady, .printf "No data ready\n" []])

/-- Lines 135-145: the body of `if (loop_count % 20 == 0)`. -/
def statisticsBlock (st : Counters) : List Event :=
  [ .printf "\n--- Statistics after %d loops ---\n" [.int st.loop_count],
    .printf "Successful reads: %d\n" [.int st.successful_reads],
    .printf "Failed reads: %d\n" [.int st.failed_reads],
    .printf "No data ready: %d\n" [.int st.no_data_count] ]
  ++ (if st.loop_count > 0 then
        [ .printf "Success rate: %.1f%%\n"
            [.flt ((st.successful_reads * 100 : ℚ) / st.loop_count)],
          .printf "Data ready rate: %.1f%%\n"
            [.flt (((st.successful_reads + st.failed_reads) * 100 : ℚ) / st.loop_count)] ]
      else [])
  ++ [ .printf "--------------------------------\n\n" [] ]

/-- Lines 133-146: the statistics, printed when `loop_count % 20 == 0` (the
remainder of C++, which truncates towards zero). -/
def statistics (st : Counters) : List Event :=
  if st.loop_count.tmod 20 = 0 then statisticsBlock st else []

/-- Lines 148-153: the poll of `isDataReady` that selects the delay. -/
def delay (readyAfter : Bool) : List Event :=
  if readyAfter then [Event.isDataReady, .sleep_ms 500] else [Event.isDataReady, .sleep_ms 50]

/-- One iteration of `while (1)` of line 77 (lines 78-153): the counters after it
and its output. -/
def iteration (st : Counters) (i : IterInput) : Counters × List Event :=
  let st1 := { st with loop_count := st.loop_count + 1 }
  let p := pollBranch st1 i
  (p.1, [Event.printf "Loop #%d: " [.int st1.loop_count]] ++ p.2 ++ statistics p.1
    ++ delay i.readyAfter)

/-- The counters after the first `n` iterations of the loop, the driver
answering `inputs k` in iteration number k + 1. -/
def loopState (inputs : Nat → IterInput) : Nat → Counters
  | 0 => Counters.init
  | n + 1 => (iteration (loopState inputs n) (inputs n)).1

/-- The output of iteration number `n + 1` of the loop. -/
def loopOutput (inputs : Nat → IterInput) (n : Nat) : List Event :=
  (iteration (loopState inputs n) (inputs n)).2

/-! ## The whole program (main.cpp lines 7-157) -/

/-- What the SDK and the driver answer to `main`. -/
structure Env where
  /-- result of `compass.begin()` at line 22 -/
  beginOk : Bool
  /-- result of `i2c_read_blocking` at line 30, for each address -/
  i2cRead : Int → Int
  /-- `compass.getChipId(chip_id)` at line 37: `none` when it returns false, else
  the byte stored in `chip_id` -/
  chipId : Option Int
  /-- the driver's configuration when `begin()` has returned true -/
  afterBegin : Configuration
  /-- the driver's table of gauss-per-LSB constants -/
  gaussPerLSB : Gain → ℚ
  /-- outcome of the register write of `setGain` at line 50 -/
  gainWriteOk : Bool
  /-- outcome of the register write of `setDataRate` at line 51 -/
  rateWriteOk : Bool
  /-- outcome of the register write of `setMode` at line 52 -/
  modeWriteOk : Bool
  /-- the answers of the driver in each iteration of the measurement loop -/
  inputs : Nat → IterInput

/-- Lines 9-22: start-up, up to and including the call of `begin`. -/
def startup : List Event :=
  [ .stdio_init_all,
    .sleep_ms 3000,
    .printf "QMC5883L Magnetometer Test (using HMC5883L interface)\n" [],
    -- line 14: a rule of 53 equals signs and a newline
    .printf ("".pushn '=' 53 ++ "\n") [],
    .construct 4 5 400000 0x0D,
    .printf "Attempting to initialize QMC5883L at address 0x0D...\n" [],
    .begin ]

/-- Lines 28-33: the scan of the addresses 0x08 to 0x77. -/
def scanBus (i2cRead : Int → Int) : List Event :=
  (List.range (0x78 - 0x08)).flatMap fun k =>
    let addr : Int := 0x08 + k
    Event.i2c_read_blocking addr ::
      (if i2cRead addr ≥ 0 then [Event.printf "Found I2C device at address 0x%02X\n" [.int addr]]
       else [])

/-- Lines 23-39: the branch taken when `begin()` returned false, up to the
`while (1)` of line 41. -/
def initFailure (env : Env) : List Event :=
  [ .printf "Failed to initialize QMC5883L!\n" [],
    .printf "Check wiring and I2C connections.\n" [],
    .printf "\nScanning I2C bus for devices...\n" [] ]
  ++ scanBus env.i2cRead
  ++ [Event.getChipId]
  ++ (match env.chipId with
      | some chip_id =>
        [Event.printf "Chip ID: 0x%02X (expected: 0xFF for QMC5883L)\n" [.int chip_id]]
      | none => [])

/-- Lines 50-52: the three setter calls of the demo; their results are
discarded by main.cpp. -/
def configure (env : Env) : Configuration :=
  let c1 := (setGain env.gaussPerLSB env.gainWriteOk Gain.GAIN_2G env.afterBegin).1
  let c2 := (setDataRate env.rateWriteOk DataRate.ODR_50HZ c1).1
  (setMode env.modeWriteOk Mode.CONTINUOUS c2).1

/-- Lines 46-60: the output between the successful `begin()` and the loop. -/
def configureOutput (env : Env) : List Event :=
  [ .printf "QMC5883L initialized successfully!\n" [],
    .printf "Configuring sensor settings...\n" [],
    .setGain Gain.GAIN_2G,
    .setDataRate DataRate.ODR_50HZ,
    .setMode Mode.CONTINUOUS,
    .printf "Sensor configuration:\n" [],
    .printf "- Range: ±2 Gauss\n" [],
    .printf "- Data Rate: 50 Hz\n" [],
    .printf "- Mode: Continuous\n" [],
    .getScaleFactor,
    .printf "- Scale Factor: %.6f Gauss/LSB\n" [.flt (getScaleFactor (configure env))],
    .printf "Starting measurement loop...\n" [],
    .printf "Press Ctrl+C to exit\n\n" [] ]

/-- Where control is in `main` between two steps. -/
inductive Phase where
  /-- at the entry of `main` -/
  | entry
  /-- in the `while (1)` of lines 41-43, after `begin()` failed -/
  | idle
  /-- at the head of the `while (1)` of line 77, with the counters and the
  number of iterations completed -/
  | measuring (st : Counters) (done : Nat)
  deriving DecidableEq, Repr

/-- One step of `main`: from the entry to one of the two loops, or one iteration
of the loop it is in.  Neither loop has an exit, so `main` never returns. -/
def step (env : Env) : Phase → Phase × List Event
  | .entry =>
    if env.beginOk then (.measuring Counters.init 0, startup ++ configureOutput env)
    else (.idle, startup ++ initFailure env)
  | .idle => (.idle, [Event.sleep_ms 1000])
  | .measuring st done =>
    let r := iteration st (env.inputs done)
    (.measuring r.1 (done + 1), r.2)

/-- The phase reached and the output produced by the first `n` steps of `main`. -/
def run (env : Env) : Nat → Phase × List Event
  | 0 => (.entry, [])
  | n + 1 =>
    let r := run env n
    let s := step env r.1
    (s.1, r.2 ++ s.2)

/-! ## Sample inputs

Concrete values at which the theorems below are instantiated. -/

/-- A measurement: raw counts, their values in gauss at 12000 LSB per gauss, a
heading and a temperature. -/
def sampleData : MagnetometerData :=
  { x_raw := 1200, y_raw := -600, z_raw := 3000,
    x_gauss := 1 / 10, y_gauss := -1 / 20, z_gauss := 1 / 4,
    heading_degrees := 333.4, temperature_celsius := 24.5 }

/-- Another measurement, differing from `sampleData` in every field. -/
def otherData : MagnetometerData :=
  { x_raw := -7, y_raw := 9, z_raw := 11,
    x_gauss := 2, y_gauss := 3, z_gauss := 5,
    heading_degrees := 56.3, temperature_celsius := -3 }

/-- An iteration in which data is ready and read successfully, and the poll of
line 149 then finds no new data. -/
def readThenNotReady : IterInput :=
  { ready := true, readOk := true, data := sampleData, readyAfter := false }

/-- An iteration in which data is ready and `readData` fails. -/
def failedRead : IterInput :=
  { ready := true, readOk := false, data := sampleData, readyAfter := true }

/-- An iteration in which no data is ready at line 82. -/
def notReady : IterInput :=
  { ready := false, readOk := false, data := sampleData, readyAfter := false }

/-- A table of gauss-per-LSB constants: 12000 LSB per gauss in the ±2G range
and 3000 LSB per gauss in the ±8G range. -/
def sampleGaussPerLSB : Gain → ℚ
  | .GAIN_2G => 1 / 12000
  | .GAIN_8G => 1 / 3000

/-- A driver configuration with the ±8G range applied. -/
def sampleConfiguration : Configuration :=
  { mode := .STANDBY, gain := .GAIN_8G, rate := .ODR_0_75HZ,
    scaleFactor := sampleGaussPerLSB .GAIN_8G }

/-- An environment: `begin()` and the register write of `setGain` succeed or
fail as given, a device answers at address 0x0D, and the loop sees a failed
read, then no data, then successful reads. -/
def sampleEnv (beginOk gainWriteOk : Bool) : Env :=
  { beginOk := beginOk,
    i2cRead := fun addr => if addr = 0x0D then 1 else -1,
    chipId := some 0xFF,
    afterBegin := sampleConfiguration,
    gaussPerLSB := sampleGaussPerLSB,
    gainWriteOk := gainWriteOk,
    rateWriteOk := true,
    modeWriteOk := true,
    inputs := fun k => if k = 0 then failedRead else if k = 1 then notReady else readThenNotReady }

/-! ## Cardinal direction: the sectors -/

/-- The branch of the chain that is taken, with its bounds in lowest terms. -/
theorem direction_cases (h : ℚ) :
    (direction h = "North" ∧ (675 / 2 ≤ h ∨ h < 45 / 2)) ∨
    (direction h = "Northeast" ∧ 45 / 2 ≤ h ∧ h < 135 / 2) ∨
    (direction h = "East" ∧ 135 / 2 ≤ h ∧ h < 225 / 2) ∨
    (direction h = "Southeast" ∧ 225 / 2 ≤ h ∧ h < 315 / 2) ∨
    (direction h = "South" ∧ 315 / 2 ≤ h ∧ h < 405 / 2) ∨
    (direction h = "Southwest" ∧ 405 / 2 ≤ h ∧ h < 495 / 2) ∨
    (direction h = "West" ∧ 495 / 2 ≤ h ∧ h < 585 / 2) ∨
    (direction h = "Northwest" ∧ 585 / 2 ≤ h ∧ h < 675 / 2) := by
  unfold direction
  split_ifs with h1 h2 h3 h4 h5 h6 h7
  all_goals norm_num at h1
  · exact Or.inl ⟨rfl, h1⟩
  · norm_num at h2
    exact Or.inr (Or.inl ⟨rfl, h1.2, h2⟩)
  · norm_num at h2 h3
    exact Or.inr (Or.inr (Or.inl ⟨rfl, h2, h3⟩))
  · norm_num at h3 h4
    exact Or.inr (Or.inr (Or.inr (Or.inl ⟨rfl, h3, h4⟩)))
  · norm_num at h4 h5
    exact Or.inr (Or.inr (Or.inr (Or.inr (Or.inl ⟨rfl, h4, h5⟩))))
  · norm_num at h5 h6
    exact Or.inr (Or.inr (Or.inr (Or.inr (Or.inr (Or.inl ⟨rfl, h5, h6⟩)))))
  · norm_num at h6 h7
    exact Or.inr (Or.inr (Or.inr (Or.inr (Or.inr (Or.inr (Or.inl ⟨rfl, h6, h7⟩))))))
  · norm_num at h7
    exact Or.inr (Or.inr (Or.inr (Or.inr (Or.inr (Or.inr (Or.inr ⟨rfl, h7, h1.1⟩))))))

/-- The sector number of a heading within 22.5 degrees of 45 k. -/
theorem sector_floor (h : ℚ) (k : ℤ) (lo : 45 * (k : ℚ) - 45 / 2 ≤ h)
    (hi : h < 45 * (k : ℚ) + 45 / 2) : ⌊(h + 22.5) / 45⌋ = k := by
  rw [Int.floor_eq_iff]
  constructor
  · rw [le_div_iff₀ (by norm_num)]; norm_num; linarith
  · rw [div_lt_iff₀ (by norm_num)]; norm_num; linarith

/-- The labels of `direction` at the headings of the four axes and at 360. -/
theorem direction_axes :
    direction 0 = "North" ∧ direction 90 = "East" ∧ direction 180 = "South" ∧
    direction 270 = "West" ∧ direction 360 = "North" := by
  refine ⟨?_, ?_, ?_, ?_, ?_⟩ <;> (unfold direction; norm_num)

/-- C1: for every heading h with 0 ≤ h < 360 the if/else chain of main.cpp
returns the label of the 45-degree sector that contains h, the sectors being
centred on the compass points with inclusive lower and exclusive upper bounds:
North on [337.5, 360) and [0, 22.5), Northeast on [22.5, 67.5), East on
[67.5, 112.5), Southeast on [112.5, 157.5), South on [157.5, 202.5), Southwest
on [202.5, 247.5), West on [247.5, 292.5), Northwest on [292.5, 337.5); and it
agrees with the labeling by eight equal sectors of the specification. -/
theorem direction_sectors (h : ℚ) (h0 : 0 ≤ h) (h360 : h < 360) :
    (direction h = "North" ↔ (337.5 ≤ h ∧ h < 360) ∨ (0 ≤ h ∧ h < 22.5)) ∧
    (direction h = "Northeast" ↔ 22.5 ≤ h ∧ h < 67.5) ∧
    (direction h = "East" ↔ 67.5 ≤ h ∧ h < 112.5) ∧
    (direction h = "Southeast" ↔ 112.5 ≤ h ∧ h < 157.5) ∧
    (direction h = "South" ↔ 157.5 ≤ h ∧ h < 202.5) ∧
    (direction h = "Southwest" ↔ 202.5 ≤ h ∧ h < 247.5) ∧
    (direction h = "West" ↔ 247.5 ≤ h ∧ h < 292.5) ∧
    (direction h = "Northwest" ↔ 292.5 ≤ h ∧ h < 337.5) ∧
    direction h ∈ compassPoints ∧
    direction h = directionBySector h := by
  refine ⟨?_, ?_, ?_, ?_, ?_, ?_, ?_, ?_, ?_, ?_⟩
  case refine_9 =>
    rcases direction_cases h with e | e | e | e | e | e | e | e <;> rw [e.1] <;>
      simp [compassPoints]
  case refine_10 =>
    unfold directionBySector
    rcases direction_cases h with ⟨e, b⟩ | ⟨e, b1, b2⟩ | ⟨e, b1, b2⟩ | ⟨e, b1, b2⟩ |
      ⟨e, b1, b2⟩ | ⟨e, b1, b2⟩ | ⟨e, b1, b2⟩ | ⟨e, b1, b2⟩
    · rcases b with b | b
      · rw [e, sector_floor h 8 (by norm_num; linarith) (by norm_num; linarith)]; rfl
      · rw [e, sector_floor h 0 (by norm_num; linarith) (by norm_num; linarith)]; rfl
    · rw [e, sector_floor h 1 (by norm_num; linarith) (by norm_num; linarith)]; rfl
    · rw [e, sector_floor h 2 (by norm_num; linarith) (by norm_num; linarith)]; rfl
    · rw [e, sector_floor h 3 (by norm_num; linarith) (by norm_num; linarith)]; rfl
    · rw [e, sector_floor h 4 (by norm_num; linarith) (by norm_num; linarith)]; rfl
    · rw [e, sector_floor h 5 (by norm_num; linarith) (by norm_num; linarith)]; rfl
    · rw [e, sector_floor h 6 (by norm_num; linarith) (by norm_num; linarith)]; rfl
    · rw [e, sector_floor h 7 (by norm_num; linarith) (by norm_num; linarith)]; rfl
  all_goals norm_num
  all_goals
    rcases direction_cases h with ⟨e, b⟩ | ⟨e, b1, b2⟩ | ⟨e, b1, b2⟩ | ⟨e, b1, b2⟩ |
      ⟨e, b1, b2⟩ | ⟨e, b1, b2⟩ | ⟨e, b1, b2⟩ | ⟨e, b1, b2⟩
  all_goals rw [e]
  all_goals simp only [String.reduceEq, true_iff, false_iff, not_and, not_or, not_lt, not_le]
  all_goals first
    | exact ⟨b1, b2⟩
    | (intro hh; linarith)
    | (rcases b with b | b
       · exact Or.inl ⟨b, h360⟩
       · exact Or.inr ⟨h0, b⟩)
    | (intro hh; rcases b with b | b <;> linarith)
    | exact ⟨fun _ => by linarith, fun _ => by linarith⟩

/-- The heading 100 lies in the East sector: `direction_sectors` at h = 100. -/
theorem direction_sectors_witness :
    (0 : ℚ) ≤ 100 ∧ (100 : ℚ) < 360 ∧ direction 100 = "East" :=
  ⟨by norm_num, by norm_num,
    (direction_sectors 100 (by norm_num) (by norm_num)).2.2.1.mpr ⟨by norm_num, by norm_num⟩⟩

/-! ## Heading on the axes -/

/-- The heading of the modelled computation lies in [0, 360). -/
theorem headingDegrees_range (x y : ℝ) :
    0 ≤ headingDegrees x y ∧ headingDegrees x y < 360 := by
  have hp := Real.pi_pos
  have h1 := Complex.neg_pi_lt_arg ⟨x, y⟩
  have h2 := Complex.arg_le_pi ⟨x, y⟩
  unfold headingDegrees
  simp only
  split_ifs with hneg
  · constructor
    · apply div_nonneg _ hp.le
      nlinarith
    · rw [div_lt_iff₀ hp]
      nlinarith
  · push_neg at hneg
    constructor
    · apply div_nonneg _ hp.le
      nlinarith
    · rw [div_lt_iff₀ hp]
      nlinarith

/-- The vector (1, 0) has heading 0. -/
theorem headingDegrees_x_axis : headingDegrees 1 0 = 0 := by
  have e : (⟨1, 0⟩ : ℂ) = 1 := rfl
  simp [headingDegrees, e]

/-- The vector (0, 1) has heading 90. -/
theorem headingDegrees_y_axis : headingDegrees 0 1 = 90 := by
  have e : (⟨0, 1⟩ : ℂ) = Complex.I := rfl
  have hp := Real.pi_pos
  have hn : ¬ (Real.pi / 2 < 0) := by linarith
  simp only [headingDegrees, e, Complex.arg_I, if_neg hn]
  field_simp
  ring

/-- The vector (-1, 0) has heading 180. -/
theorem headingDegrees_neg_x_axis : headingDegrees (-1) 0 = 180 := by
  have e : (⟨-1, 0⟩ : ℂ) = -1 := by apply Complex.ext <;> simp
  have hp := Real.pi_pos
  have hn : ¬ (Real.pi < 0) := by linarith
  simp only [headingDegrees, e, Complex.arg_neg_one, if_neg hn]
  field_simp

/-- The vector (0, -1) has heading 270. -/
theorem headingDegrees_neg_y_axis : headingDegrees 0 (-1) = 270 := by
  have e : (⟨0, -1⟩ : ℂ) = -Complex.I := by apply Complex.ext <;> simp
  have hp := Real.pi_pos
  have hn : -(Real.pi / 2) < 0 := by linarith
  simp only [headingDegrees, e, Complex.arg_neg_I, if_pos hn]
  field_simp
  ring

/-- C2: the heading boundary test.  The heading atan2(y, x), normalised to
degrees in [0, 360), is 0 for the calibrated vector (1, 0), 90 for (0, 1), 180
for (-1, 0) and 270 for (0, -1), and the labeling of main.cpp gives "North" at 0
and at 360, "East" at 90, "South" at 180 and "West" at 270. -/
theorem heading_boundary_labels :
    (∀ x y : ℝ, 0 ≤ headingDegrees x y ∧ headingDegrees x y < 360) ∧
    (headingDegrees 1 0 = ((0 : ℚ) : ℝ) ∧ direction 0 = "North") ∧
    (headingDegrees 0 1 = ((90 : ℚ) : ℝ) ∧ direction 90 = "East") ∧
    (headingDegrees (-1) 0 = ((180 : ℚ) : ℝ) ∧ direction 180 = "South") ∧
    (headingDegrees 0 (-1) = ((270 : ℚ) : ℝ) ∧ direction 270 = "West") ∧
    direction 360 = "North" := by
  obtain ⟨d0, d90, d180, d270, d360⟩ := direction_axes
  refine ⟨headingDegrees_range, ⟨?_, d0⟩, ⟨?_, d90⟩, ⟨?_, d180⟩, ⟨?_, d270⟩, d360⟩
  · rw [headingDegrees_x_axis]; norm_num
  · rw [headingDegrees_y_axis]; norm_num
  · rw [headingDegrees_neg_x_axis]; norm_num
  · rw [headingDegrees_neg_y_axis]; norm_num

/-! ## The measurement loop: counters -/

/-- The counters after the poll of line 82 and its branches: exactly one of the
three outcome counters is one higher, `loop_count` is untouched. -/
theorem pollBranch_counters (st : Counters) (i : IterInput) :
    (pollBranch st i).1 =
      if i.ready then
        if i.readOk then { st with successful_reads := st.successful_reads + 1 }
        else { st with failed_reads := st.failed_reads + 1 }
      else { st with no_data_count := st.no_data_count + 1 } := by
  unfold pollBranch readBranch
  cases i.ready <;> cases i.readOk <;> rfl

/-- The counters after one iteration. -/
theorem iteration_counters (st : Counters) (i : IterInput) :
    (iteration st i).1 =
      if i.ready then
        if i.readOk then
          { st with loop_count := st.loop_count + 1, successful_reads := st.successful_reads + 1 }
        else { st with loop_count := st.loop_count + 1, failed_reads := st.failed_reads + 1 }
      else { st with loop_count := st.loop_count + 1, no_data_count := st.no_data_count + 1 } := by
  unfold iteration
  simp only [pollBranch_counters]

/-- The output of one iteration, part by part. -/
theorem iteration_output (st : Counters) (i : IterInput) :
    (iteration st i).2 =
      [Event.printf "Loop #%d: " [.int (st.loop_count + 1)]]
        ++ (pollBranch { st with loop_count := st.loop_count + 1 } i).2
        ++ statistics (iteration st i).1 ++ delay i.readyAfter := rfl

/-- After `n` iterations `loop_count` holds `n`, the outcome counters add up to
it and none is negative. -/
theorem loopState_invariant (inputs : Nat → IterInput) (n : Nat) :
    (loopState inputs n).loop_count = n ∧
    (loopState inputs n).successful_reads + (loopState inputs n).failed_reads
      + (loopState inputs n).no_data_count = (loopState inputs n).loop_count ∧
    0 ≤ (loopState inputs n).successful_reads ∧ 0 ≤ (loopState inputs n).failed_reads ∧
    0 ≤ (loopState inputs n).no_data_count := by
  induction n with
  | zero => simp [loopState, Counters.init]
  | succ n ih =>
    obtain ⟨h1, h2, h3, h4, h5⟩ := ih
    simp only [loopState, iteration_counters]
    cases (inputs n).ready <;> cases (inputs n).readOk <;>
      simp only [if_true, if_false, Bool.false_eq_true] <;>
      refine ⟨?_, ?_, ?_, ?_, ?_⟩ <;> push_cast <;> omega

/-- C9: counter invariant of the measurement loop.  Starting from all counters
zero, after every number n of completed iterations and for every sequence of
driver answers, successful_reads + failed_reads + no_data_count = loop_count = n,
no counter is negative, and iteration n + 1 increases loop_count by one and
exactly one of the three outcome counters by one, leaving the other two as they
were. -/
theorem counter_invariant (inputs : Nat → IterInput) (n : Nat) :
    (loopState inputs n).successful_reads + (loopState inputs n).failed_reads
      + (loopState inputs n).no_data_count = (loopState inputs n).loop_count ∧
    (loopState inputs n).loop_count = n ∧
    0 ≤ (loopState inputs n).loop_count ∧
    0 ≤ (loopState inputs n).successful_reads ∧ 0 ≤ (loopState inputs n).failed_reads ∧
    0 ≤ (loopState inputs n).no_data_count ∧
    (loopState inputs (n + 1)).loop_count = (loopState inputs n).loop_count + 1 ∧
    (((loopState inputs (n + 1)).successful_reads = (loopState inputs n).successful_reads + 1 ∧
        (loopState inputs (n + 1)).failed_reads = (loopState inputs n).failed_reads ∧
        (loopState inputs (n + 1)).no_data_count = (loopState inputs n).no_data_count) ∨
      ((loopState inputs (n + 1)).successful_reads = (loopState inputs n).successful_reads ∧
        (loopState inputs (n + 1)).failed_reads = (loopState inputs n).failed_reads + 1 ∧
        (loopState inputs (n + 1)).no_data_count = (loopState inputs n).no_data_count) ∨
      ((loopState inputs (n + 1)).successful_reads = (loopState inputs n).successful_reads ∧
        (loopState inputs (n + 1)).failed_reads = (loopState inputs n).failed_reads ∧
        (loopState inputs (n + 1)).no_data_count = (loopState inputs n).no_data_count + 1)) := by
  obtain ⟨h1, h2, h3, h4, h5⟩ := loopState_invariant inputs n
  refine ⟨h2, h1, by omega, h3, h4, h5, ?_, ?_⟩
  · simp only [loopState, iteration_counters]
    cases (inputs n).ready <;> cases (inputs n).readOk <;> simp
  · simp only [loopState, iteration_counters]
    cases (inputs n).ready <;> cases (inputs n).readOk <;> simp

/-! ## The measurement loop: statistics and delay -/

/-- The statistics header is printed by an iteration exactly when the incremented
`loop_count` leaves remainder 0 on division by 20. -/
theorem statistics_header_iff (st : Counters) (i : IterInput) :
    (∃ args, Event.printf "\n--- Statistics after %d loops ---\n" args ∈ (iteration st i).2) ↔
      (st.loop_count + 1).tmod 20 = 0 := by
  have hc : (iteration st i).1.loop_count = st.loop_count + 1 := by
    rw [iteration_counters]
    cases i.ready <;> cases i.readOk <;> rfl
  rw [iteration_output]
  unfold statistics
  rw [hc]
  by_cases h : (st.loop_count + 1).tmod 20 = 0
  · simp only [h, if_true, iff_true]
    exact ⟨[Arg.int (iteration st i).1.loop_count], by simp [statisticsBlock]⟩
  · simp only [h, if_false, iff_false]
    rintro ⟨args, hm⟩
    cases hr : i.ready <;> cases hk : i.readOk <;> cases ha : i.readyAfter <;>
      simp [pollBranch, readBranch, reportData, delay, hr, hk, ha] at hm

/-- C8: statistics are printed every 20 loops.  In iteration number n (counted
from 1), whatever the driver answers, `loop_count` holds n, the statistics block
is printed when n is a multiple of 20 and nothing is printed in its place
otherwise; the header of the block occurs in the output of iteration n if and
only if 20 divides n. -/
theorem statistics_every_20 (inputs : Nat → IterInput) (n : Nat) (hn : 0 < n) :
    (loopState inputs n).loop_count = n ∧
    loopOutput inputs (n - 1) =
      [Event.printf "Loop #%d: " [.int n]]
        ++ (pollBranch { loopState inputs (n - 1) with loop_count := n } (inputs (n - 1))).2
        ++ (if 20 ∣ n then statisticsBlock (loopState inputs n) else [])
        ++ delay (inputs (n - 1)).readyAfter ∧
    ((∃ args, Event.printf "\n--- Statistics after %d loops ---\n" args
        ∈ loopOutput inputs (n - 1)) ↔ 20 ∣ n) := by
  obtain ⟨m, rfl⟩ : ∃ m, n = m + 1 := ⟨n - 1, by omega⟩
  have hm : (loopState inputs m).loop_count = m := (loopState_invariant inputs m).1
  have hn1 : (loopState inputs (m + 1)).loop_count = (m + 1 : ℕ) :=
    (loopState_invariant inputs (m + 1)).1
  have hdvd : ((m : ℤ) + 1).tmod 20 = 0 ↔ 20 ∣ m + 1 := by
    rw [Int.tmod_eq_emod (by omega) (by omega)]
    omega
  refine ⟨hn1, ?_, ?_⟩
  · simp only [Nat.add_sub_cancel, loopOutput]
    rw [iteration_output, hm]
    have e : (iteration (loopState inputs m) (inputs m)).1 = loopState inputs (m + 1) := rfl
    rw [e]
    unfold statistics
    rw [hn1]
    push_cast
    by_cases h : 20 ∣ m + 1
    · rw [if_pos h, if_pos (hdvd.mpr h)]
    · rw [if_neg h, if_neg (fun h2 => h (hdvd.mp h2))]
  · simp only [Nat.add_sub_cancel, loopOutput]
    rw [statistics_header_iff, hm]
    exact hdvd

/-- Iteration 20 of the loop of `sampleEnv` prints the statistics header:
`statistics_every_20` at n = 20. -/
theorem statistics_every_20_witness :
    0 < 20 ∧
    ∃ args, Event.printf "\n--- Statistics after %d loops ---\n" args
      ∈ loopOutput (sampleEnv true true).inputs (20 - 1) :=
  ⟨by decide, (statistics_every_20 (sampleEnv true true).inputs 20 (by decide)).2.2.mpr
    (by decide)⟩

/-! ## The measurement loop: the outcomes of an iteration -/

/-- C4: the demo loop never interprets the data of a failed read.  In an
iteration where data is ready and `readData` returns false, the counters and the
output are the same whatever the contents of `data`: `loop_count` and
`failed_reads` increase by one, the other counters are unchanged, the read
branch prints "FAILED to read data" and nothing else, and no field of `data`
reaches the output. -/
theorem failed_read_ignores_data (st : Counters) (i j : IterInput)
    (hready : i.ready = true) (hfail : i.readOk = false)
    (hj1 : j.ready = i.ready) (hj2 : j.readOk = i.readOk) (hj3 : j.readyAfter = i.readyAfter) :
    iteration st i = iteration st j ∧
    (iteration st i).1 =
      { st with loop_count := st.loop_count + 1, failed_reads := st.failed_reads + 1 } ∧
    readBranch { st with loop_count := st.loop_count + 1 } i.readOk i.data =
      ({ st with loop_count := st.loop_count + 1, failed_reads := st.failed_reads + 1 },
        [Event.readData, Event.printf "FAILED to read data\n" []]) ∧
    (iteration st i).2 =
      [Event.printf "Loop #%d: " [.int (st.loop_count + 1)], Event.isDataReady,
        Event.printf "Data ready - " [], Event.readData, Event.printf "FAILED to read data\n" []]
      ++ statistics { st with loop_count := st.loop_count + 1,
                              failed_reads := st.failed_reads + 1 }
      ++ delay i.readyAfter := by
  rw [hready] at hj1
  rw [hfail] at hj2
  refine ⟨?_, ?_, ?_, ?_⟩
  · simp [iteration, pollBranch, readBranch, hready, hfail, hj1, hj2, hj3]
  · simp [iteration_counters, hready, hfail]
  · simp [readBranch, hfail]
  · simp [iteration, pollBranch, readBranch, hready, hfail]

/-- Two iterations with a failed read and different contents of `data` have the
same result: `failed_read_ignores_data` at `failedRead`. -/
theorem failed_read_ignores_data_witness :
    iteration Counters.init failedRead
      = iteration Counters.init { failedRead with data := otherData } ∧
    (iteration Counters.init failedRead).1
      = { loop_count := 1, successful_reads := 0, failed_reads := 1, no_data_count := 0 } :=
  ⟨(failed_read_ignores_data Counters.init failedRead { failedRead with data := otherData }
      rfl rfl rfl rfl rfl).1,
   (failed_read_ignores_data Counters.init failedRead { failedRead with data := otherData }
      rfl rfl rfl rfl rfl).2.1⟩

/-- C5: data-not-ready is not treated as an error.  In an iteration where the
poll of line 82 returns false, `readData` is not called, no failure is printed,
`failed_reads` and `successful_reads` are unchanged, `no_data_count` increases
by exactly one, and the loop goes on: the next step of `main` is the next
iteration, which polls `isDataReady` again. -/
theorem not_ready_is_not_an_error (env : Env) (st : Counters) (k : Nat)
    (h : (env.inputs k).ready = false) :
    Event.readData ∉ (iteration st (env.inputs k)).2 ∧
    Event.printf "FAILED to read data\n" [] ∉ (iteration st (env.inputs k)).2 ∧
    Event.printf "No data ready\n" [] ∈ (iteration st (env.inputs k)).2 ∧
    (iteration st (env.inputs k)).1.failed_reads = st.failed_reads ∧
    (iteration st (env.inputs k)).1.successful_reads = st.successful_reads ∧
    (iteration st (env.inputs k)).1.no_data_count = st.no_data_count + 1 ∧
    (iteration st (env.inputs k)).1.loop_count = st.loop_count + 1 ∧
    step env (.measuring st k)
      = (.measuring (iteration st (env.inputs k)).1 (k + 1), (iteration st (env.inputs k)).2) ∧
    Event.isDataReady ∈ (step env (.measuring (iteration st (env.inputs k)).1 (k + 1))).2 := by
  refine ⟨?_, ?_, ?_, ?_, ?_, ?_, ?_, rfl, ?_⟩
  · rw [iteration_output]
    unfold statistics
    split_ifs <;> cases ha : (env.inputs k).readyAfter <;>
      simp [pollBranch, statisticsBlock, delay, h]
  · rw [iteration_output]
    unfold statistics
    split_ifs <;> cases ha : (env.inputs k).readyAfter <;>
      simp [pollBranch, statisticsBlock, delay, h]
  · rw [iteration_output]
    simp [pollBranch, h]
  · simp [iteration_counters, h]
  · simp [iteration_counters, h]
  · simp [iteration_counters, h]
  · simp [iteration_counters, h]
  · show Event.isDataReady ∈ (iteration _ _).2
    rw [iteration_output]
    cases hr : (env.inputs (k + 1)).ready <;> simp [pollBranch, hr]

/-- The second iteration of `sampleEnv` finds no data ready: `readData` is not
called and `no_data_count` goes from 0 to 1. -/
theorem not_ready_is_not_an_error_witness :
    ((sampleEnv true true).inputs 1).ready = false ∧
    Event.readData ∉ (iteration Counters.init ((sampleEnv true true).inputs 1)).2 ∧
    (iteration Counters.init ((sampleEnv true true).inputs 1)).1.no_data_count = 0 + 1 :=
  ⟨rfl, (not_ready_is_not_an_error (sampleEnv true true) Counters.init 1 rfl).1,
    (not_ready_is_not_an_error (sampleEnv true true) Counters.init 1 rfl).2.2.2.2.2.1⟩

/-- C7: the delay at the end of an iteration follows the poll of line 149 and not
the outcome of the iteration.  Every iteration ends with `sleep_ms(500)` when
that poll returns true and with `sleep_ms(50)` when it returns false; so an
iteration with a successful read whose second poll finds no data sleeps 50 ms,
and an iteration that found no data ready whose second poll returns true sleeps
500 ms. -/
theorem delay_follows_second_poll (st : Counters) (i : IterInput) (d : MagnetometerData) :
    (iteration st i).2.getLast? = some (Event.sleep_ms (if i.readyAfter then 500 else 50)) ∧
    ((iteration st { ready := true, readOk := true, data := d, readyAfter := false }).1.successful_reads
        = st.successful_reads + 1 ∧
      Event.printf "SUCCESS\n" []
        ∈ (iteration st { ready := true, readOk := true, data := d, readyAfter := false }).2 ∧
      (iteration st { ready := true, readOk := true, data := d, readyAfter := false }).2.getLast?
        = some (Event.sleep_ms 50)) ∧
    ((iteration st { ready := false, readOk := false, data := d, readyAfter := true }).1.no_data_count
        = st.no_data_count + 1 ∧
      (iteration st { ready := false, readOk := false, data := d, readyAfter := true }).2.getLast?
        = some (Event.sleep_ms 500)) := by
  have key : ∀ (s : Counters) (x : IterInput),
      (iteration s x).2.getLast? = some (Event.sleep_ms (if x.readyAfter then 500 else 50)) := by
    intro s x
    rw [iteration_output, List.getLast?_append]
    cases x.readyAfter <;> simp [delay]
  refine ⟨key st i, ⟨?_, ?_, ?_⟩, ?_, ?_⟩
  · simp [iteration_counters]
  · rw [iteration_output]
    simp [pollBranch, readBranch, reportData]
  · rw [key]; rfl
  · simp [iteration_counters]
  · rw [key]; rfl

/-! ## The whole program: failure of `begin` and of `readData` -/

/-- The bus scan makes no call of `begin`. -/
theorem begin_not_mem_scanBus (i2cRead : Int → Int) : Event.begin ∉ scanBus i2cRead := by
  unfold scanBus
  simp only [List.mem_flatMap, not_exists, not_and]
  intro k _ hm
  split_ifs at hm <;> simp at hm

/-- The failure branch makes no call of `begin`. -/
theorem begin_not_mem_initFailure (env : Env) : Event.begin ∉ initFailure env := by
  unfold initFailure
  have hs := begin_not_mem_scanBus env.i2cRead
  cases env.chipId <;> simp [hs]

/-- When `begin()` returns false, `main` runs the failure branch once and then
stays in the loop of lines 41-43, sleeping. -/
theorem run_begin_failed (env : Env) (h : env.beginOk = false) (n : Nat) :
    run env (n + 1)
      = (Phase.idle, startup ++ initFailure env ++ List.replicate n (Event.sleep_ms 1000)) := by
  induction n with
  | zero => simp [run, step, h]
  | succ n ih =>
    rw [run, ih]
    simp only [step, List.replicate_succ', List.append_assoc]

/-- When `begin()` returns true, `main` enters the measurement loop and stays in
it: after the entry step and `n` further steps it is at the head of the loop
with `n` iterations done. -/
theorem run_begin_ok (env : Env) (h : env.beginOk = true) (n : Nat) :
    (run env (n + 1)).1 = Phase.measuring (loopState env.inputs n) n := by
  induction n with
  | zero => simp [run, step, h, loopState]
  | succ n ih =>
    rw [run]
    simp only [ih, step, loopState]

/-- The number of calls of `begin` when it returned false. -/
theorem count_begin_failed (env : Env) (h : env.beginOk = false) (n : Nat) :
    (run env (n + 1)).2.count Event.begin = 1 := by
  rw [run_begin_failed env h n]
  simp only [List.count_append, List.count_replicate]
  rw [List.count_eq_zero.mpr (begin_not_mem_initFailure env)]
  simp [startup]

/-- C3, the claim as stated fails: with `begin()` returning false, `begin` is
never called a second time, however long the program runs; from the first step
on the program is in the idle loop of lines 41-43. -/
theorem begin_never_retried :
    (sampleEnv false true).beginOk = false ∧
    (¬ ∃ n, 2 ≤ (run (sampleEnv false true) n).2.count Event.begin) ∧
    (∀ n, (run (sampleEnv false true) (n + 1)).1 = Phase.idle) := by
  refine ⟨rfl, ?_, ?_⟩
  · rintro ⟨n, hn⟩
    cases n with
    | zero => simp [run] at hn
    | succ n =>
      rw [count_begin_failed _ rfl n] at hn
      omega
  · intro n
    rw [run_begin_failed _ rfl n]

/-- C3, amended: for each of `begin()` returning false and `readData()`
returning false the program prints a failure message; a failed `readData` is
retried, a failed `begin` is not.  When `begin()` returns false the program
prints "Failed to initialize QMC5883L!", runs the diagnostics of lines 24-39 and
then only sleeps in the loop of lines 41-43: `begin` is called exactly once.
When `begin()` returns true the program stays in the measurement loop for ever;
an iteration in which `readData()` returns false prints "FAILED to read data",
adds exactly one to `failed_reads` (and one to `loop_count`, nothing to the
other counters), and the next step is the next iteration, which polls
`isDataReady` and calls `readData` again exactly when that poll returns true. -/
theorem faults_logged_read_retried (env : Env) :
    (env.beginOk = false → ∀ n,
      run env (n + 1)
        = (Phase.idle, startup ++ initFailure env ++ List.replicate n (Event.sleep_ms 1000)) ∧
      Event.printf "Failed to initialize QMC5883L!\n" [] ∈ (run env (n + 1)).2 ∧
      (run env (n + 1)).2.count Event.begin = 1) ∧
    (env.beginOk = true → ∀ n,
      (run env (n + 1)).1 = Phase.measuring (loopState env.inputs n) n) ∧
    (∀ st k, (env.inputs k).ready = true → (env.inputs k).readOk = false →
      Event.printf "FAILED to read data\n" [] ∈ (step env (.measuring st k)).2 ∧
      (step env (.measuring st k)).1 = .measuring (iteration st (env.inputs k)).1 (k + 1) ∧
      (iteration st (env.inputs k)).1.failed_reads = st.failed_reads + 1 ∧
      (step env (.measuring st k)).1
        = .measuring { st with loop_count := st.loop_count + 1,
                               failed_reads := st.failed_reads + 1 } (k + 1) ∧
      Event.isDataReady ∈ (step env (step env (.measuring st k)).1).2 ∧
      (Event.readData ∈ (step env (step env (.measuring st k)).1).2
        ↔ (env.inputs (k + 1)).ready = true)) := by
  refine ⟨?_, ?_, ?_⟩
  · intro h n
    refine ⟨run_begin_failed env h n, ?_, count_begin_failed env h n⟩
    rw [run_begin_failed env h n]
    simp [initFailure]
  · intro h n
    exact run_begin_ok env h n
  · intro st k hr hf
    have hc : (iteration st (env.inputs k)).1
        = { st with loop_count := st.loop_count + 1, failed_reads := st.failed_reads + 1 } := by
      simp [iteration_counters, hr, hf]
    refine ⟨?_, rfl, ?_, ?_, ?_, ?_⟩
    · show _ ∈ (iteration _ _).2
      rw [iteration_output]
      simp [pollBranch, readBranch, hr, hf]
    · rw [hc]
    · show Phase.measuring (iteration st (env.inputs k)).1 (k + 1) = _
      rw [hc]
    · show _ ∈ (iteration _ _).2
      rw [iteration_output]
      cases hr2 : (env.inputs (k + 1)).ready <;> simp [pollBranch, hr2]
    · show _ ∈ (iteration _ _).2 ↔ _
      rw [iteration_output]
      unfold statistics
      cases hr2 : (env.inputs (k + 1)).ready <;> cases hk2 : (env.inputs (k + 1)).readOk <;>
        cases ha2 : (env.inputs (k + 1)).readyAfter <;> split_ifs <;>
        simp [pollBranch, readBranch, reportData, statisticsBlock, delay, hr2, hk2]

/-- With `sampleEnv`: when `begin()` fails it is called once in four steps; the
failed read of the first iteration is logged and takes `failed_reads` from 0
to 1. -/
theorem faults_logged_read_retried_witness :
    (sampleEnv false true).beginOk = false ∧
    (run (sampleEnv false true) (3 + 1)).2.count Event.begin = 1 ∧
    ((sampleEnv true true).inputs 0).ready = true ∧
    ((sampleEnv true true).inputs 0).readOk = false ∧
    Event.printf "FAILED to read data\n" []
      ∈ (step (sampleEnv true true) (.measuring Counters.init 0)).2 ∧
    (iteration Counters.init ((sampleEnv true true).inputs 0)).1.failed_reads
      = Counters.init.failed_reads + 1 :=
  ⟨rfl, ((faults_logged_read_retried (sampleEnv false true)).1 rfl 3).2.2, rfl, rfl,
    ((faults_logged_read_retried (sampleEnv true true)).2.2 Counters.init 0 rfl rfl).1,
    ((faults_logged_read_retried (sampleEnv true true)).2.2 Counters.init 0 rfl rfl).2.2.1⟩

end PicoQMC5883L
